import Mathlib

/-!
Verification of the link_shortener repository against its natural-language
specification.  Pure Lean embeddings of the repository's operations
(admin CRUD over link documents, device/geo enrichment, the legacy
serializer) are given below, followed by theorems settling the frozen
claims.  The redirect engine module (`routes/redirect.py`) is imported by
`main.py` but is not present among the sources; the parts of it that
claims need are modelled from the specification and marked as such.
-/

set_option autoImplicit false

namespace LinkShortener

/-! ## Generic association-list helpers (Python `dict`-like lookup) -/

/-- First-match lookup in an association list, like Python `dict` access on
documents whose keys are unique. -/
def alookup {α : Type} : List (String × α) → String → Option α
  | [], _ => none
  | p :: ps, k => if p.1 = k then some p.2 else alookup ps k

/-- Option fallback, like Python `x or y` on values where only `None` is falsy. -/
def optOr {α : Type} : Option α → Option α → Option α
  | some v, _ => some v
  | none, b => b

theorem optOr_none_right {α : Type} (a : Option α) : optOr a none = a := by
  cases a <;> rfl

theorem optOr_assoc {α : Type} (a b c : Option α) :
    optOr (optOr a b) c = optOr a (optOr b c) := by
  cases a <;> rfl

/-! ## Query-string parsing and merging

Modelled from the spec: the redirect engine module (`routes/redirect.py`)
is absent from the sources.  Per §4.1, both the destination's existing query
parameters and the incoming ones are parsed into ordered key-to-value
mappings, the incoming parameters are overlaid onto the existing ones
(incoming wins on key collision), and the result is re-encoded as the final
query string appended to the destination path. -/

/-- Split a character list on every occurrence of `c` (like `str.split`). -/
def splitListOn (c : Char) : List Char → List (List Char)
  | [] => [[]]
  | a :: as =>
    match splitListOn c as with
    | [] => [[a]]
    | g :: gs => if a = c then [] :: g :: gs else (a :: g) :: gs

/-- Split a character list at the first occurrence of `c`; the second
component is `none` when `c` does not occur (like `str.split(c, 1)`). -/
def splitFirstOn (c : Char) : List Char → List Char × Option (List Char)
  | [] => ([], none)
  | a :: as =>
    if a = c then ([], some as)
    else
      let r := splitFirstOn c as
      (a :: r.1, r.2)

/-- Modelled from the spec: parse a query string into an ordered key-to-value
mapping.  Segments are separated by ampersands, empty segments are dropped,
and each segment is split at its first equals sign (a missing value becomes
the empty string). -/
def parseQuery (q : String) : List (String × String) :=
  (splitListOn '&' q.toList).filterMap fun seg =>
    if seg = [] then none
    else
      let r := splitFirstOn '=' seg
      some (String.mk r.1, String.mk (r.2.getD []))

/-- Update an ordered mapping at key `k`: replace the first binding of `k`
in place, or append a new binding at the end (Python `dict` update order). -/
def setKey : List (String × String) → String → String → List (String × String)
  | [], k, v => [(k, v)]
  | p :: ps, k, v => if p.1 = k then (k, v) :: ps else p :: setKey ps k v

/-- Build an ordered mapping from a pair list, later bindings overriding
earlier ones (Python `dict(pairs)`). -/
def fromPairs (ps : List (String × String)) : List (String × String) :=
  ps.foldl (fun m kv => setKey m kv.1 kv.2) []

/-- Modelled from the spec: overlay the incoming parameters onto the
existing ones; the incoming side wins on key collision. -/
def mergeParams (ex inc : List (String × String)) : List (String × String) :=
  fromPairs (ex ++ inc)

/-- Re-encode an ordered key-to-value mapping as a query string. -/
def encodeQuery (ps : List (String × String)) : String :=
  String.intercalate "&" (ps.map fun p => p.1 ++ "=" ++ p.2)

/-- Path part of a destination URL: everything before the first question mark. -/
def destPath (dest : String) : String :=
  String.mk (splitFirstOn '?' dest.toList).1

/-- Query part of a destination URL: everything after the first question
mark, empty when there is none. -/
def destQuery (dest : String) : String :=
  String.mk ((splitFirstOn '?' dest.toList).2.getD [])

/-- Modelled from the spec: compute the final destination URL.  With no
incoming query string the stored destination is used verbatim; otherwise
the merged parameters are re-encoded and appended to the destination path. -/
def computeDestination (dest incomingQuery : String) : String :=
  if incomingQuery = "" then dest
  else
    destPath dest ++ "?" ++
      encodeQuery (mergeParams (parseQuery (destQuery dest)) (parseQuery incomingQuery))

/-- Last-binding lookup: the value of the final occurrence of `k`. -/
def lookupLast : List (String × String) → String → Option String
  | [], _ => none
  | p :: ps, k => optOr (lookupLast ps k) (if p.1 = k then some p.2 else none)

/-- The keys of a mapping have no duplicates. -/
def keysNodup (ps : List (String × String)) : Prop :=
  (ps.map Prod.fst).Nodup

instance (ps : List (String × String)) : Decidable (keysNodup ps) := by
  unfold keysNodup; infer_instance

/-! ## Link documents and the link store

Embeds the document shape written by `routes/admin.py` (`shorten_link`)
into a record.  MongoDB ObjectIds are modelled as naturals, datetime
values carried by link documents as integers (epoch microseconds). -/

structure LinkDoc where
  oid : Nat
  slug : String
  original_url : String
  title : Option String
  notes : Option String
  tags : List String
  is_active : Bool
  created_at : Option Int
  updated_at : Option Int
  expires_at : Option Int
  max_clicks : Option Nat
  click_count : Nat
  callback_url : Option String
  qr_png : Option String
  qr_svg : Option String
  status : Option String
  deriving DecidableEq

/-- Strip all trailing slashes, like Python `str.rstrip("/")`. -/
def rstripSlash (s : String) : String :=
  String.mk (((s.toList.reverse).dropWhile (fun c => c = '/')).reverse)

/-- Strip all leading slashes, like Python `str.lstrip("/")`. -/
def lstripSlash (s : String) : String :=
  String.mk (s.toList.dropWhile (fun c => c = '/'))

/-- The relative QR asset paths returned by `utils/qr.py` `generate_qr`
(`static/{slug}.png`, `static/{slug}.svg`); the image files it writes are
outside the modelled state. -/
def generate_qr (slug : String) : String × String :=
  ("static/" ++ slug ++ ".png", "static/" ++ slug ++ ".svg")

/-- The slug pattern enforced by `schemas/shortlink.py` `validate_slug`:
3 to 64 characters drawn from ASCII letters, digits, underscore and hyphen. -/
def slugPatternOk (s : String) : Bool :=
  3 ≤ s.length && s.length ≤ 64 &&
    s.toList.all fun c => c.isAlphanum || c = '_' || c = '-'

/-- Response model of `POST /admin/shorten` (`schemas/shortlink.py`
`ShortenResponse`).  The pydantic `HttpUrl` parsing of the two QR URLs is
not modelled; it depends only on the deployment's `BASE_URL` setting. -/
structure ShortenResponse where
  slug : Option String
  qr_png : String
  qr_svg : String
  deriving DecidableEq

/-- Failure modes of the shorten endpoint: an explicit `HTTPException`
(status code and detail) or a pydantic validation error raised while
building the response model. -/
inductive ShortenFailure where
  | http (code : Nat) (detail : String)
  | validation (msg : String)
  deriving DecidableEq

/-- The effective slug of `shorten_link`: `slug = slug or shortuuid.uuid()[:6]`
(a missing or empty form field falls back to the generated slug). -/
def effectiveSlug (supplied : Option String) (autoSlug : String) : String :=
  match supplied with
  | none => autoSlug
  | some s => if s = "" then autoSlug else s

/-- The document inserted by `shorten_link` (`routes/admin.py` lines 79-95). -/
def shortenDoc (newOid : Nat) (slug url name : String) (notes : Option String)
    (expires_at : Option Int) (callback_url : Option String)
    (qr_png qr_svg : String) (now : Int) : LinkDoc :=
  { oid := newOid
    slug := slug
    original_url := url
    title := some name
    notes := notes
    tags := []
    is_active := true
    created_at := some now
    updated_at := none
    expires_at := expires_at
    max_clicks := none
    click_count := 0
    callback_url := callback_url
    qr_png := some qr_png
    qr_svg := some qr_svg
    status := some "valid" }

/-- Build the `ShortenResponse`, running the `validate_slug` validator the
pydantic model applies to its `slug` field. -/
def mkShortenResponse (slug : Option String) (qr_png qr_svg : String) :
    Except ShortenFailure ShortenResponse :=
  match slug with
  | none => .ok { slug := none, qr_png := qr_png, qr_svg := qr_svg }
  | some s =>
    if slugPatternOk s then .ok { slug := some s, qr_png := qr_png, qr_svg := qr_svg }
    else .error (.validation "slug must match ^[a-zA-Z0-9_-]\x7b3,64\x7d$")

/-- Embeds `routes/admin.py` `shorten_link` (lines 55-100).  The slug falls
back to the generated one; a stored link with the same slug yields a 409
and no insert; otherwise QR URLs are derived from `BASE_URL`, the document
is inserted, and only then is the `ShortenResponse` built (so its slug
validation runs after `insert_one`).  The generated-slug randomness
(`shortuuid`), the current time and the new ObjectId are parameters. -/
def shorten_link (links : List LinkDoc) (name url : String)
    (callback_url notes : Option String) (expires_at : Option Int)
    (supplied : Option String) (autoSlug : String) (baseUrl : String)
    (now : Int) (newOid : Nat) :
    Except ShortenFailure ShortenResponse × List LinkDoc :=
  let slug := effectiveSlug supplied autoSlug
  if (links.find? fun l => l.slug = slug).isSome then
    (.error (.http 409 "Slug já está em uso."), links)
  else
    let qr := generate_qr slug
    let base := rstripSlash baseUrl
    let qr_png := base ++ "/" ++ qr.1
    let qr_svg := base ++ "/" ++ qr.2
    let doc := shortenDoc newOid slug url name notes expires_at callback_url qr_png qr_svg now
    let links2 := links ++ [doc]
    (mkShortenResponse (some slug) qr_png qr_svg, links2)

/-! ## Access logs and link deletion -/

/-- An access-log document: the slug reference plus the remaining payload,
which the deletion path never touches. -/
structure AccessLog where
  slug : String
  body : List (String × String)
  deriving DecidableEq

/-- Remove the first element satisfying `p` (MongoDB `delete_one`). -/
def removeFirst {α : Type} (p : α → Bool) : List α → List α
  | [] => []
  | a :: as => if p a then as else a :: removeFirst p as

/-- Replace the first element satisfying `p` by its image under `f`
(MongoDB `update_one`). -/
def updateFirst {α : Type} (p : α → Bool) (f : α → α) : List α → List α
  | [] => []
  | a :: as => if p a then f a :: as else a :: updateFirst p f as

/-- The tombstone rewrite `update_many` applies to access logs on deletion. -/
def tombstoneLog (slug newSlug : String) (g : AccessLog) : AccessLog :=
  if g.slug = slug then { g with slug := newSlug } else g

/-- Embeds `routes/admin.py` `delete_link` (lines 382-415).  Looks up the
link by id, rewrites the slug of its access logs to
`{slug}_deleted_{date}`, and removes the link document.  The current date
is a parameter; removal of the QR image files and ObjectId string parsing
are outside the modelled state. -/
def delete_link (links : List LinkDoc) (logs : List AccessLog) (lid : Nat)
    (today : String) : Except (Nat × String) (List LinkDoc × List AccessLog) :=
  match links.find? fun l => l.oid = lid with
  | none => .error (404, "Link não encontrado")
  | some link =>
    if link.slug = "" then .error (400, "Documento sem slug")
    else
      let newSlug := link.slug ++ "_deleted_" ++ today
      let logs2 := logs.map (tombstoneLog link.slug newSlug)
      let links2 := removeFirst (fun l => l.oid = lid) links
      .ok (links2, logs2)

/-! ## QR regeneration -/

/-- Per-slug result entries of `POST /admin/qr/regenerate`
(`schemas/admin.py` `RegenerateQrResult`, reduced to the cases produced). -/
inductive QrResult where
  | linkNotFound (slug : String)
  | okSkipped (slug qr_png qr_svg : String)
  | okGenerated (slug qr_png qr_svg : String)
  deriving DecidableEq

/-- The `$set` update both branches of `regenerate_qr_codes` apply to the
matched link: the two QR URLs, `is_active=true`, `status="valid"` and
`updated_at=now`; every other field is left as stored. -/
def applyQrSet (png svg : String) (now : Int) (l : LinkDoc) : LinkDoc :=
  { l with
    qr_png := some png
    qr_svg := some svg
    is_active := true
    status := some "valid"
    updated_at := some now }

/-- Embeds one iteration of the slug loop of `routes/admin.py`
`regenerate_qr_codes` (lines 507-562).  File existence on disk and the
current time are parameters; the QR files written by `generate_qr` are
outside the modelled state. -/
def regenerateOne (links : List LinkDoc) (slug : String)
    (force pngExists svgExists : Bool) (baseUrl : String) (now : Int) :
    List LinkDoc × QrResult :=
  match links.find? fun l => l.slug = slug with
  | none => (links, .linkNotFound slug)
  | some doc =>
    let base := rstripSlash baseUrl
    if !force && pngExists && svgExists then
      let qr_png := base ++ "/src/static/" ++ slug ++ ".png"
      let qr_svg := base ++ "/src/static/" ++ slug ++ ".svg"
      (updateFirst (fun l => l.oid = doc.oid) (applyQrSet qr_png qr_svg now) links,
        .okSkipped slug qr_png qr_svg)
    else
      let rel := generate_qr slug
      let qr_png :=
        if rel.1.toList.contains '/' then base ++ "/" ++ lstripSlash rel.1
        else base ++ "/" ++ rel.1
      let qr_svg :=
        if rel.2.toList.contains '/' then base ++ "/" ++ lstripSlash rel.2
        else base ++ "/" ++ rel.2
      (updateFirst (fun l => l.oid = doc.oid) (applyQrSet qr_png qr_svg now) links,
        .okGenerated slug qr_png qr_svg)

/-! ## IP addresses (stdlib `ipaddress`, as used by `utils/device.py`)

`ipaddress.ip_address` tries an IPv4 parse, then an IPv6 parse, and raises
`ValueError` when both fail; `_is_private_ip` maps that error to `True`.
The parsers and the private/loopback/reserved network tables below embed
CPython's `Lib/ipaddress.py`. -/

/-- Numeric value of a decimal digit. -/
def digitVal (c : Char) : Option Nat :=
  if c.isDigit then some (c.toNat - 48) else none

/-- Numeric value of a hexadecimal digit (both cases accepted). -/
def hexDigitVal (c : Char) : Option Nat :=
  if c.isDigit then some (c.toNat - 48)
  else
    let w := c.toLower
    if 'a' ≤ w && w ≤ 'f' then some (w.toNat - 87) else none

/-- Decimal value of a digit list (caller checks the digits). -/
def natOfDigits (l : List Char) : Nat :=
  l.foldl (fun acc c => 10 * acc + (c.toNat - 48)) 0

/-- One dotted-quad octet, per CPython `_parse_octet`: one to three ASCII
digits, no leading zero, value at most 255. -/
def parseOctet (l : List Char) : Option Nat :=
  if l = [] then none
  else if l.length > 3 then none
  else if !l.all Char.isDigit then none
  else if l.length > 1 && l.head? = some '0' then none
  else
    let n := natOfDigits l
    if n ≤ 255 then some n else none

/-- Value of four dotted-quad octets. -/
def v4octets (a b c d : Nat) : Nat :=
  ((a * 256 + b) * 256 + c) * 256 + d

/-- CPython `IPv4Address._ip_int_from_string`: exactly four octets. -/
def parseIPv4 (l : List Char) : Option Nat :=
  match splitListOn '.' l with
  | [a, b, c, d] => do
    let a ← parseOctet a
    let b ← parseOctet b
    let c ← parseOctet c
    let d ← parseOctet d
    pure (v4octets a b c d)
  | _ => none

/-- One IPv6 hextet, per CPython `_parse_hextet`: one to four hex digits
(leading zeros allowed). -/
def parseHextet (l : List Char) : Option Nat :=
  if l = [] || l.length > 4 then none
  else l.foldl (fun acc c => do pure ((← acc) * 16 + (← hexDigitVal c))) (some 0)

/-- Accumulate hextets most-significant first. -/
def foldHextets : List (List Char) → Nat → Option Nat
  | [], acc => some acc
  | p :: ps, acc =>
    match parseHextet p with
    | none => none
    | some h => foldHextets ps (acc * 65536 + h)

/-- Index of the first empty group, if any. -/
def firstEmptyIdx : List (List Char) → Option Nat
  | [] => none
  | p :: ps => if p = [] then some 0 else (firstEmptyIdx ps).map (· + 1)

/-- CPython `IPv6Address._ip_int_from_string` after colon splitting: at most
nine groups, at most one `::` (an empty inner group), leading or trailing
lone colons rejected, eight hextets in total after expansion. -/
def parseIPv6Core (parts : List (List Char)) : Option Nat :=
  let n := parts.length
  if n > 9 then none
  else
    let inner := (parts.drop 1).dropLast
    if inner.count [] = 0 then
      if n = 8 ∧ parts.head? ≠ some ([] : List Char) ∧ parts.getLast? ≠ some ([] : List Char) then
        foldHextets parts 0
      else none
    else if inner.count [] = 1 then
      match firstEmptyIdx inner with
      | none => none
      | some i =>
        let skip := i + 1
        let hiParts : Option (List (List Char)) :=
          if parts.head? = some ([] : List Char) then
            if skip = 1 then some [] else none
          else some (parts.take skip)
        let loParts : Option (List (List Char)) :=
          if parts.getLast? = some ([] : List Char) then
            if skip = n - 2 then some [] else none
          else some (parts.drop (skip + 1))
        match hiParts, loParts with
        | some hs, some ls =>
          if hs.length + ls.length ≤ 7 then do
            let hv ← foldHextets hs 0
            foldHextets ls (hv * 65536 ^ (8 - (hs.length + ls.length)))
          else none
        | _, _ => none
    else none

/-- IPv6 address body: at least three colon-separated groups, with an
embedded dotted-quad allowed as the last group. -/
def parseIPv6Addr (l : List Char) : Option Nat :=
  let parts := splitListOn ':' l
  if parts.length < 3 then none
  else
    match parts.getLast? with
    | none => none
    | some lastP =>
      if lastP.contains '.' then
        match parseIPv4 lastP with
        | none => none
        | some v4 =>
          parseIPv6Core
            (parts.dropLast ++ [Nat.toDigits 16 (v4 / 65536), Nat.toDigits 16 (v4 % 65536)])
      else parseIPv6Core parts

/-- IPv6 address with an optional non-empty `%scope` suffix. -/
def parseIPv6 (l : List Char) : Option Nat :=
  let sp := splitFirstOn '%' l
  match sp.2 with
  | none => parseIPv6Addr sp.1
  | some scope =>
    if scope = [] || scope.contains '%' then none else parseIPv6Addr sp.1

inductive IpAddr where
  | v4 (val : Nat)
  | v6 (val : Nat)
  deriving DecidableEq

/-- `ipaddress.ip_address`: IPv4 first, IPv6 second, `none` for `ValueError`. -/
def ip_address (s : String) : Option IpAddr :=
  match parseIPv4 s.toList with
  | some v => some (.v4 v)
  | none => (parseIPv6 s.toList).map .v6

/-- Membership of an address value in a network given as base value and
prefix length, over the given address width in bits. -/
def inNet (width x net plen : Nat) : Bool :=
  x / 2 ^ (width - plen) = net / 2 ^ (width - plen)

/-- CPython `IPv4Address` private networks table. -/
def privateNets4 : List (Nat × Nat) :=
  [(v4octets 0 0 0 0, 8), (v4octets 10 0 0 0, 8), (v4octets 127 0 0 0, 8),
   (v4octets 169 254 0 0, 16), (v4octets 172 16 0 0, 12), (v4octets 192 0 0 0, 29),
   (v4octets 192 0 0 170, 31), (v4octets 192 0 2 0, 24), (v4octets 192 168 0 0, 16),
   (v4octets 198 18 0 0, 15), (v4octets 198 51 100 0, 24), (v4octets 203 0 113 0, 24),
   (v4octets 240 0 0 0, 4), (v4octets 255 255 255 255, 32)]

/-- CPython `IPv6Address` private networks table. -/
def privateNets6 : List (Nat × Nat) :=
  [(1, 128), (0, 128), (0xffff * 2 ^ 32, 96), (0x0100 * 2 ^ 112, 64),
   (0x2001 * 2 ^ 112, 23), (0x2001 * 2 ^ 112 + 0x0db8 * 2 ^ 96, 32),
   (0x2002 * 2 ^ 112, 16), (0xfc00 * 2 ^ 112, 7), (0xfe80 * 2 ^ 112, 10)]

/-- CPython `IPv6Address` reserved networks table. -/
def reservedNets6 : List (Nat × Nat) :=
  [(0, 8), (0x0100 * 2 ^ 112, 8), (0x0200 * 2 ^ 112, 7), (0x0400 * 2 ^ 112, 6),
   (0x0800 * 2 ^ 112, 5), (0x1000 * 2 ^ 112, 4), (0x4000 * 2 ^ 112, 3),
   (0x6000 * 2 ^ 112, 3), (0x8000 * 2 ^ 112, 3), (0xa000 * 2 ^ 112, 3),
   (0xc000 * 2 ^ 112, 3), (0xe000 * 2 ^ 112, 4), (0xf000 * 2 ^ 112, 5),
   (0xf800 * 2 ^ 112, 6), (0xfe00 * 2 ^ 112, 9)]

def ipIsPrivate : IpAddr → Bool
  | .v4 x => privateNets4.any fun p => inNet 32 x p.1 p.2
  | .v6 x => privateNets6.any fun p => inNet 128 x p.1 p.2

def ipIsLoopback : IpAddr → Bool
  | .v4 x => inNet 32 x (v4octets 127 0 0 0) 8
  | .v6 x => x = 1

def ipIsReserved : IpAddr → Bool
  | .v4 x => inNet 32 x (v4octets 240 0 0 0) 4
  | .v6 x => reservedNets6.any fun p => inNet 128 x p.1 p.2

/-- Embeds `utils/device.py` `_is_private_ip` (lines 15-20): an address
that fails to parse counts as private. -/
def _is_private_ip (ip : String) : Bool :=
  match ip_address ip with
  | none => true
  | some a => ipIsPrivate a || ipIsLoopback a || ipIsReserved a

/-! ## Geo enrichment (`utils/device.py` `get_geo_from_ip`) -/

/-- Values carried by the geo provider's JSON payload. -/
inductive GVal where
  | gnull
  | gstr (s : String)
  | gnum (q : Int)
  deriving DecidableEq

/-- Values of the dictionary `get_geo_from_ip` returns: payload values plus
the whole payload under the `raw` key. -/
inductive GeoVal where
  | base (v : GVal)
  | raw (payload : List (String × GVal))
  deriving DecidableEq

/-- Decoded JSON body of a response: either an object, on which
`data.get` works, or valid JSON of another shape (`null`, array, string,
number), on which `data.get` raises `AttributeError`. -/
inductive GJson where
  | jobj (fields : List (String × GVal))
  | jnonobject
  deriving DecidableEq

/-- Outcome of the single outbound HTTP request: a timeout (or connection
error), or a response with a status code and a body that either decodes
(`some`) or makes `resp.json()` raise (`none`). -/
inductive NetOutcome where
  | timeout
  | response (status : Nat) (body : Option GJson)
  deriving DecidableEq

/-- The uncaught exception the enrichment can leak: the `data.get` calls
of `get_geo_from_ip` sit outside its `try` block. -/
inductive EnrichError where
  | attributeError
  deriving DecidableEq

def is2xx (c : Nat) : Bool := 200 ≤ c && c ≤ 299

/-- Whether the lookup attempt fails: timeout, non-2xx status
(`raise_for_status`), or a malformed payload (`resp.json()` raising). -/
def geoLookupFailed : NetOutcome → Bool
  | .timeout => true
  | .response c body => !is2xx c || body.isNone

/-- The client timeout of the geo lookup, in seconds
(`httpx.AsyncClient(timeout=2.0)`). -/
def geoTimeoutSeconds : ℚ := 2

/-- Embeds `utils/device.py` `get_geo_from_ip` (lines 37-64).  The network
outcome is a parameter; the second component counts outbound requests.
Exceptions raised inside the `try` block (the request, `raise_for_status`,
`resp.json()`) are caught and degrade to the IP-only dictionary, but the
`data.get(...)` field extraction of the return statement sits outside the
`try`: on a 2xx response whose body decodes to a non-object it raises an
uncaught `AttributeError` to the caller, modelled by the `Except` error. -/
def get_geo_from_ip (ip : Option String) (net : NetOutcome) :
    Except EnrichError (List (String × GeoVal)) × Nat :=
  match ip with
  | none => (.ok [], 0)
  | some ip =>
    if ip = "" then (.ok [], 0)
    else if _is_private_ip ip then (.ok [("ip", .base (.gstr ip))], 0)
    else
      match net with
      | .timeout => (.ok [("ip", .base (.gstr ip))], 1)
      | .response c body =>
        if !is2xx c then (.ok [("ip", .base (.gstr ip))], 1)
        else
          match body with
          | none => (.ok [("ip", .base (.gstr ip))], 1)
          | some .jnonobject => (.error .attributeError, 1)
          | some (.jobj data) =>
            (.ok [("ip", .base (.gstr ip)),
              ("country", .base ((alookup data "country_name").getD .gnull)),
              ("country_code", .base ((alookup data "country").getD .gnull)),
              ("region", .base ((alookup data "region").getD .gnull)),
              ("city", .base ((alookup data "city").getD .gnull)),
              ("latitude", .base ((alookup data "latitude").getD .gnull)),
              ("longitude", .base ((alookup data "longitude").getD .gnull)),
              ("timezone", .base ((alookup data "timezone").getD .gnull)),
              ("raw", .raw data)], 1)

/-! ## Device enrichment (`utils/device.py` `parse_user_agent`)

The `user_agents` library matches the user-agent string against its regex
database and returns a default object when nothing matches; it does not
raise.  The library is modelled by its match outcome: a function from the
string to an optional match result. -/

structure UserAgentInfo where
  is_mobile : Bool
  is_tablet : Bool
  is_pc : Bool
  browser_family : String
  browser_version : String
  os_family : String
  os_version : String
  device_family : String
  deriving DecidableEq

/-- The library's defaults when no regex matches: flags false, the
designated null family `Other`, empty version strings. -/
def uaDefaults : UserAgentInfo :=
  { is_mobile := false, is_tablet := false, is_pc := false
    browser_family := "Other", browser_version := ""
    os_family := "Other", os_version := "", device_family := "Other" }

/-- `user_agents.parse`, given the regex-database match outcome. -/
def uaParse (lib : String → Option UserAgentInfo) (s : String) : UserAgentInfo :=
  (lib s).getD uaDefaults

/-- The dictionary shape `parse_user_agent` returns. -/
structure DeviceFacts where
  is_mobile : Bool
  is_tablet : Bool
  is_pc : Bool
  browser : String
  browser_version : String
  os : String
  os_version : String
  device : String
  deriving DecidableEq

/-- Embeds `utils/device.py` `parse_user_agent` (lines 23-34). -/
def parse_user_agent (lib : String → Option UserAgentInfo) (ua_string : String) :
    DeviceFacts :=
  let ua := uaParse lib ua_string
  { is_mobile := ua.is_mobile, is_tablet := ua.is_tablet, is_pc := ua.is_pc
    browser := ua.browser_family, browser_version := ua.browser_version
    os := ua.os_family, os_version := ua.os_version, device := ua.device_family }

/-- The degraded device-facts record: all flags false, the parser's null
family values, empty versions. -/
def nullDeviceFacts : DeviceFacts :=
  { is_mobile := false, is_tablet := false, is_pc := false
    browser := "Other", browser_version := ""
    os := "Other", os_version := "", device := "Other" }

/-! ## Python values and datetimes (for the schemaless document paths)

Link documents read back from MongoDB are schemaless; the serializers in
`routes/routes.py` and `routes/admin.py` branch on field presence and
value type.  `PyVal` models the values such documents carry, and
`PyDateTime` models a `datetime` by the microsecond count of its civil
reading since 1970-01-01 together with its optional UTC offset
(in microseconds; `none` is a naive datetime). -/

structure PyDateTime where
  wall : Int
  tz : Option Int
  deriving DecidableEq

inductive PyVal where
  | vnone
  | vbool (b : Bool)
  | vint (n : Int)
  | vstr (s : String)
  | vdt (d : PyDateTime)
  | vlist (xs : List String)
  | objectId (n : Nat)
  deriving DecidableEq

/-- Python `dict.get` with `None` default on a document. -/
def dget (doc : List (String × PyVal)) (k : String) : PyVal :=
  (alookup doc k).getD .vnone

/-- Python truthiness of the modelled values. -/
def pyTruthy : PyVal → Bool
  | .vnone => false
  | .vbool b => b
  | .vint n => n != 0
  | .vstr s => s != ""
  | .vdt _ => true
  | .vlist xs => !xs.isEmpty
  | .objectId _ => true

/-- Python `str()` of the modelled values; only the ObjectId and string
cases are exercised by stored `_id` fields. -/
def pyStr : PyVal → String
  | .vstr s => s
  | .objectId n => toString n
  | .vnone => "None"
  | .vbool b => if b then "True" else "False"
  | .vint n => toString n
  | .vdt _ => "datetime"
  | .vlist _ => "list"

/-! ### `datetime.fromisoformat` (CPython, pre-3.11 grammar) -/

def parse2 (a b : Char) : Option Nat := do
  pure ((← digitVal a) * 10 + (← digitVal b))

/-- Fractional-second field: exactly three or six digits, scaled to
microseconds. -/
def parseFrac (l : List Char) : Option Nat :=
  if l.length = 3 ∨ l.length = 6 then
    if l.all Char.isDigit then
      some (if l.length = 3 then natOfDigits l * 1000 else natOfDigits l)
    else none
  else none

/-- CPython `_parse_hh_mm_ss_ff`: `HH[:MM[:SS[.fff[fff]]]]` with strict
colon separators, consuming the whole string. -/
def parseHMSFF : List Char → Option (Nat × Nat × Nat × Nat)
  | [a, b] => do pure ((← parse2 a b), 0, 0, 0)
  | [a, b, ':', c, d] => do pure ((← parse2 a b), (← parse2 c d), 0, 0)
  | [a, b, ':', c, d, ':', e, f] => do
    pure ((← parse2 a b), (← parse2 c d), (← parse2 e f), 0)
  | a :: b :: ':' :: c :: d :: ':' :: e :: f :: '.' :: fr => do
    pure ((← parse2 a b), (← parse2 c d), (← parse2 e f), (← parseFrac fr))
  | _ => none

/-- Index of the first occurrence of a character. -/
def charIdx (c : Char) : List Char → Option Nat
  | [] => none
  | a :: as => if a = c then some 0 else (charIdx c as).map (· + 1)

/-- CPython `_parse_isoformat_time`: the first sign character splits off
the timezone field (`-` searched before `+`), whose length must be 5, 8 or
15 and whose total offset must stay strictly below 24 hours. -/
def parseIsoTime (tstr : List Char) : Option (Nat × Nat × Nat × Nat × Option Int) :=
  let tzIdx :=
    match charIdx '-' tstr with
    | some i => some i
    | none => charIdx '+' tstr
  match tzIdx with
  | none => do
    let t ← parseHMSFF tstr
    pure (t.1, t.2.1, t.2.2.1, t.2.2.2, none)
  | some i => do
    let t ← parseHMSFF (tstr.take i)
    let sign : Int := if tstr.get? i = some '-' then -1 else 1
    let tzstr := tstr.drop (i + 1)
    if tzstr.length = 5 ∨ tzstr.length = 8 ∨ tzstr.length = 15 then
      let z ← parseHMSFF tzstr
      let offAbs : Nat := (z.1 * 3600 + z.2.1 * 60 + z.2.2.1) * 1000000 + z.2.2.2
      if offAbs < 24 * 3600 * 1000000 then
        pure (t.1, t.2.1, t.2.2.1, t.2.2.2, some (sign * (offAbs : Int)))
      else none
    else none

def isLeap (y : Nat) : Bool :=
  y % 4 = 0 && (y % 100 != 0 || y % 400 = 0)

def daysInMonth (y m : Nat) : Nat :=
  if m = 2 then (if isLeap y then 29 else 28)
  else if m = 4 ∨ m = 6 ∨ m = 9 ∨ m = 11 then 30
  else 31

/-- Days in the months strictly before month `m` of a common year. -/
def cumDays (m : Nat) : Nat :=
  [0, 0, 31, 59, 90, 120, 151, 181, 212, 243, 273, 304, 334].getD m 0

/-- Days in the proleptic Gregorian calendar strictly before year `y`. -/
def daysBeforeYear (y : Nat) : Nat :=
  365 * (y - 1) + (y - 1) / 4 + (y - 1) / 400 - (y - 1) / 100

/-- Day count of a civil date relative to 1970-01-01. -/
def epochDays (y m d : Nat) : Int :=
  ((daysBeforeYear y + cumDays m + (if 2 < m && isLeap y then 1 else 0) + (d - 1) : Nat) : Int)
    - 719162

/-- Civil reading in microseconds since the 1970-01-01 00:00:00 reading. -/
def mkWall (y mo d h mi s us : Nat) : Int :=
  epochDays y mo d * 86400000000 + ((h * 3600 + mi * 60 + s) * 1000000 + us : Nat)

/-- The leading `YYYY-MM-DD` of an isoformat string, calendar-validated. -/
def parseIsoDate : List Char → Option (Nat × Nat × Nat × List Char)
  | a :: b :: c :: d :: '-' :: e :: f :: '-' :: g :: h :: rest => do
    let y := (← digitVal a) * 1000 + (← digitVal b) * 100 + (← digitVal c) * 10 + (← digitVal d)
    let mo ← parse2 e f
    let da ← parse2 g h
    if 1 ≤ y ∧ 1 ≤ mo ∧ mo ≤ 12 ∧ 1 ≤ da ∧ da ≤ daysInMonth y mo then
      pure (y, mo, da, rest)
    else none
  | _ => none

/-- CPython `datetime.fromisoformat` (pre-3.11 grammar): ten date
characters, one arbitrary separator, then the time and optional offset.
Time component ranges are those the `datetime` constructor enforces. -/
def fromisoformat (l : List Char) : Option PyDateTime := do
  let (y, mo, da, rest) ← parseIsoDate l
  match rest with
  | [] => pure { wall := mkWall y mo da 0 0 0 0, tz := none }
  | [_] => pure { wall := mkWall y mo da 0 0 0 0, tz := none }
  | _sep :: tstr => do
    let (h, mi, s, us, off) ← parseIsoTime tstr
    if h ≤ 23 ∧ mi ≤ 59 ∧ s ≤ 59 then
      pure { wall := mkWall y mo da h mi s us, tz := off }
    else none

/-- `dt.astimezone(timezone.utc)` on an aware datetime: shift the civil
reading by the offset and land at offset zero. -/
def astimezoneUtc (d : PyDateTime) : PyDateTime :=
  { wall := d.wall - d.tz.getD 0, tz := some 0 }

/-- Strip leading and trailing whitespace (`str.strip`). -/
def stripWs (l : List Char) : List Char :=
  ((l.dropWhile Char.isWhitespace).reverse.dropWhile Char.isWhitespace).reverse

/-- Rewrite a trailing `Z` into `+00:00`, as `_safe_dt` does before parsing. -/
def zToOffset (l : List Char) : List Char :=
  if l.getLast? = some 'Z' then l.dropLast ++ ['+', '0', '0', ':', '0', '0'] else l

/-- Embeds `routes/routes.py` `_safe_dt` (lines 65-90): `None` and
non-string non-datetime values map to `None`, datetimes pass through
unchanged, strings are stripped, `Z`-normalized, ISO-parsed, defaulted to
UTC when naive, and converted to UTC. -/
def _safe_dt : PyVal → Option PyDateTime
  | .vnone => none
  | .vdt d => some d
  | .vstr s =>
    let l := stripWs s.toList
    if l = [] then none
    else
      match fromisoformat (zToOffset l) with
      | none => none
      | some d =>
        let d2 := if d.tz = none then { d with tz := some 0 } else d
        some (astimezoneUtc d2)
  | _ => none

/-- Output shape of `routes/routes.py` `_serialize_link`. -/
structure SerializedLink where
  id : String
  slug : PyVal
  original_url : PyVal
  title : PyVal
  description : PyVal
  notes : PyVal
  tags : PyVal
  is_active : Bool
  callback_url : PyVal
  status : PyVal
  created_at : PyDateTime
  updated_at : Option PyDateTime
  expires_at : Option PyDateTime
  max_clicks : PyVal
  click_count : PyVal
  qr_png : PyVal
  qr_svg : PyVal
  deriving DecidableEq

/-- Embeds `routes/routes.py` `_serialize_link` (lines 93-135), the legacy
admin serializer that normalizes both schema generations.  `datetime.now`
is the parameter `now`. -/
def _serialize_link (doc : List (String × PyVal)) (now : PyDateTime) : SerializedLink :=
  let created_at :=
    (optOr (_safe_dt (dget doc "created_at")) (_safe_dt (dget doc "createdAt"))).getD now
  let updated_at := optOr (_safe_dt (dget doc "updated_at")) (_safe_dt (dget doc "reviewedAt"))
  let expires_at := _safe_dt (dget doc "expires_at")
  let status := dget doc "status"
  let is_active0 := dget doc "is_active"
  let is_active1 :=
    if is_active0 = PyVal.vnone ∧ status ≠ PyVal.vnone then
      PyVal.vbool (status == PyVal.vstr "valid")
    else is_active0
  let is_active2 := if is_active1 = PyVal.vnone then PyVal.vbool true else is_active1
  { id := pyStr (dget doc "_id")
    slug := dget doc "slug"
    original_url := dget doc "original_url"
    title := dget doc "title"
    description := dget doc "description"
    notes := dget doc "notes"
    tags := if pyTruthy (dget doc "tags") then dget doc "tags" else .vlist []
    is_active := pyTruthy is_active2
    callback_url := dget doc "callback_url"
    status := status
    created_at := created_at
    updated_at := updated_at
    expires_at := expires_at
    max_clicks := dget doc "max_clicks"
    click_count := (alookup doc "click_count").getD (.vint 0)
    qr_png := dget doc "qr_png"
    qr_svg := dget doc "qr_svg" }

/-- Output shape of the per-document dictionary the mounted admin router
builds in `list_links`. -/
structure AdminLinkItem where
  id : String
  slug : PyVal
  original_url : PyVal
  title : PyVal
  notes : PyVal
  tags : PyVal
  is_active : Bool
  callback_url : PyVal
  status : PyVal
  created_at : PyVal
  updated_at : PyVal
  expires_at : PyVal
  max_clicks : PyVal
  click_count : PyVal
  qr_png : PyVal
  qr_svg : PyVal
  deriving DecidableEq

/-- Embeds the result-row construction of `routes/admin.py` `list_links`
(lines 157-175): raw field access with `bool()` on `is_active` and no
legacy-field normalization. -/
def adminLinkItem (doc : List (String × PyVal)) : AdminLinkItem :=
  { id := pyStr (dget doc "_id")
    slug := dget doc "slug"
    original_url := dget doc "original_url"
    title := dget doc "title"
    notes := dget doc "notes"
    tags := if pyTruthy (dget doc "tags") then dget doc "tags" else .vlist []
    is_active := pyTruthy (dget doc "is_active")
    callback_url := dget doc "callback_url"
    status := dget doc "status"
    created_at := dget doc "created_at"
    updated_at := dget doc "updated_at"
    expires_at := dget doc "expires_at"
    max_clicks := dget doc "max_clicks"
    click_count := (alookup doc "click_count").getD (.vint 0)
    qr_png := dget doc "qr_png"
    qr_svg := dget doc "qr_svg" }

/-! ## The redirect engine

Modelled from the spec: `routes/redirect.py` is imported by `main.py` but
absent from the sources.  Per §4.1, `Resolve(slug, requestContext)` looks
the slug up in the link store, fails with `NotFound` when absent (the
store untouched), and otherwise computes the merged destination and
appends one access-log entry. -/

structure RequestContext where
  query : String
  ip : Option String
  user_agent : String
  deriving DecidableEq

structure StoreState where
  links : List LinkDoc
  access_logs : List AccessLog
  deriving DecidableEq

inductive RedirectError where
  | notFound
  deriving DecidableEq

/-- HTTP status of the redirect engine's user-visible errors. -/
def redirectHttpStatus : RedirectError → Nat
  | .notFound => 404

/-- Modelled from the spec: the redirect engine's `Resolve`.  An unknown
slug fails with `NotFound` and leaves the store unchanged; a known slug
yields the merged destination and appends a single access-log entry. -/
def resolve (st : StoreState) (slug : String) (ctx : RequestContext) :
    Except RedirectError String × StoreState :=
  match st.links.find? fun l => l.slug = slug with
  | none => (.error .notFound, st)
  | some link =>
    let dest := computeDestination link.original_url ctx.query
    let entry : AccessLog :=
      { slug := slug
        body := [("destination", dest), ("user_agent", ctx.user_agent),
                 ("ip", ctx.ip.getD "")] }
    (.ok dest, { st with access_logs := st.access_logs ++ [entry] })

/-! ## Sample data used by concrete instantiations -/

/-- A stored link document in the current schema shape. -/
def sampleLink : LinkDoc :=
  { oid := 1, slug := "abc123", original_url := "https://example.com/path?x=1"
    title := some "sample", notes := none, tags := [], is_active := false
    created_at := some 0, updated_at := none, expires_at := none
    max_clicks := none, click_count := 7, callback_url := none
    qr_png := none, qr_svg := none, status := some "invalid" }

/-- A legacy-generation link document: string `createdAt`, `description`,
`status`, no `is_active` field. -/
def legacyLinkDoc : List (String × PyVal) :=
  [("_id", .objectId 1), ("slug", .vstr "old1"),
   ("original_url", .vstr "https://example.com/a"),
   ("description", .vstr "legacy description"),
   ("createdAt", .vstr "2024-01-01T00:00:00Z"), ("status", .vstr "valid")]

def pyEpoch : PyDateTime := { wall := 0, tz := some 0 }

/-! ## Lemmas about ordered-mapping updates -/

theorem alookup_setKey (m : List (String × String)) (k q v : String) :
    alookup (setKey m q v) k = if q = k then some v else alookup m k := by
  induction m with
  | nil => simp [setKey, alookup]
  | cons p ps ih =>
    simp only [setKey]
    by_cases h : p.1 = q
    · rw [if_pos h]
      by_cases hk : q = k
      · subst hk; simp [alookup]
      · have hpk : ¬p.1 = k := fun hc => hk (h.symm.trans hc)
        simp [alookup, hk, hpk]
    · rw [if_neg h]
      simp only [alookup, ih]
      by_cases hpk : p.1 = k
      · have hk : ¬q = k := fun hc => h (by rw [hpk, hc])
        simp [hpk, hk]
      · simp [hpk]

theorem alookup_foldl_setKey (ps : List (String × String)) (m : List (String × String))
    (k : String) :
    alookup (ps.foldl (fun m kv => setKey m kv.1 kv.2) m) k
      = optOr (lookupLast ps k) (alookup m k) := by
  induction ps generalizing m with
  | nil => simp [lookupLast, optOr]
  | cons kv ps ih =>
    simp only [List.foldl_cons, lookupLast]
    rw [ih, alookup_setKey, optOr_assoc]
    congr 1
    by_cases h : kv.1 = k <;> simp [h, optOr]

theorem alookup_fromPairs (ps : List (String × String)) (k : String) :
    alookup (fromPairs ps) k = lookupLast ps k := by
  unfold fromPairs
  rw [alookup_foldl_setKey]
  simp [alookup, optOr_none_right]

theorem lookupLast_append (a b : List (String × String)) (k : String) :
    lookupLast (a ++ b) k = optOr (lookupLast b k) (lookupLast a k) := by
  induction a with
  | nil => simp [lookupLast, optOr_none_right]
  | cons p ps ih =>
    simp only [List.cons_append, lookupLast, List.append_eq]
    rw [ih, optOr_assoc]

theorem optOr_eq_none {α : Type} (a b : Option α) :
    optOr a b = none ↔ a = none ∧ b = none := by
  cases a <;> simp [optOr]

theorem alookup_eq_none_iff (ps : List (String × String)) (k : String) :
    alookup ps k = none ↔ k ∉ ps.map Prod.fst := by
  induction ps with
  | nil => simp [alookup]
  | cons p ps ih =>
    simp only [alookup, List.map_cons, List.mem_cons]
    by_cases h : p.1 = k
    · rw [if_pos h]
      constructor
      · intro hc; exact absurd hc (by simp)
      · intro hc; exact absurd (Or.inl h.symm) hc
    · rw [if_neg h, ih, not_or]
      constructor
      · intro hn; exact ⟨fun hc => h hc.symm, hn⟩
      · intro hn; exact hn.2

theorem lookupLast_eq_none_iff (ps : List (String × String)) (k : String) :
    lookupLast ps k = none ↔ alookup ps k = none := by
  induction ps with
  | nil => simp [lookupLast, alookup]
  | cons p ps ih =>
    rw [lookupLast, optOr_eq_none]
    by_cases h : p.1 = k <;> simp [alookup, h, ih]

theorem lookupLast_eq_alookup_of_nodup (ps : List (String × String)) (k : String)
    (h : keysNodup ps) : lookupLast ps k = alookup ps k := by
  induction ps with
  | nil => rfl
  | cons p ps ih =>
    have hcons := List.nodup_cons.mp h
    rw [lookupLast, alookup, ih hcons.2]
    by_cases hk : p.1 = k
    · have : alookup ps k = none := by
        rw [alookup_eq_none_iff]
        exact hk ▸ hcons.1
      simp [this, hk, optOr]
    · simp [hk, optOr_none_right]

theorem mem_keys_mergeParams (ex inc : List (String × String)) (k : String) :
    k ∈ (mergeParams ex inc).map Prod.fst ↔
      k ∈ ex.map Prod.fst ∨ k ∈ inc.map Prod.fst := by
  rw [← not_iff_not]
  push_neg
  rw [← alookup_eq_none_iff, ← alookup_eq_none_iff, ← alookup_eq_none_iff]
  unfold mergeParams
  rw [alookup_fromPairs, lookupLast_append, optOr_eq_none,
    lookupLast_eq_none_iff, lookupLast_eq_none_iff]
  exact and_comm

/-! ## Claim theorems -/

/-- C1: for every link resolved with an incoming query string, the final
destination is the stored destination with its query parameters overlaid
by the incoming request's parameters — the incoming value wins on a shared
key, keys present on only one side survive — and on the worked example the
slug storing `https://example.com/path?x=1` resolved under `x=2&y=3`
yields `https://example.com/path?x=2&y=3`. -/
theorem C1_query_merge :
    (∀ ex inc : List (String × String), keysNodup ex → keysNodup inc →
      (∀ k v, alookup inc k = some v → alookup (mergeParams ex inc) k = some v) ∧
      (∀ k, alookup inc k = none → alookup (mergeParams ex inc) k = alookup ex k) ∧
      (∀ k, k ∈ (mergeParams ex inc).map Prod.fst ↔
        k ∈ ex.map Prod.fst ∨ k ∈ inc.map Prod.fst)) ∧
    (∀ dest q, q ≠ "" →
      computeDestination dest q =
        destPath dest ++ "?" ++
          encodeQuery (mergeParams (parseQuery (destQuery dest)) (parseQuery q))) ∧
    computeDestination "https://example.com/path?x=1" "x=2&y=3" =
      "https://example.com/path?x=2&y=3" := by
  refine ⟨?_, ?_, by decide⟩
  · intro ex inc hex hinc
    refine ⟨?_, ?_, fun k => mem_keys_mergeParams ex inc k⟩
    · intro k v h
      unfold mergeParams
      rw [alookup_fromPairs, lookupLast_append,
        lookupLast_eq_alookup_of_nodup inc k hinc, h]
      rfl
    · intro k h
      unfold mergeParams
      rw [alookup_fromPairs, lookupLast_append,
        lookupLast_eq_alookup_of_nodup inc k hinc, h,
        lookupLast_eq_alookup_of_nodup ex k hex]
      rfl
  · intro dest q hq
    unfold computeDestination
    rw [if_neg hq]

/-- Witness instantiating C1 on the worked example's parameter lists. -/
theorem C1_query_merge_witness :
    keysNodup [("x", "1")] ∧ keysNodup [("x", "2"), ("y", "3")] ∧
    alookup [("x", "2"), ("y", "3")] "x" = some "2" ∧
    alookup (mergeParams [("x", "1")] [("x", "2"), ("y", "3")]) "x" = some "2" ∧
    "y" ∈ (mergeParams [("x", "1")] [("x", "2"), ("y", "3")]).map Prod.fst := by
  refine ⟨by decide, by decide, by decide,
    (C1_query_merge.1 _ _ (by decide) (by decide)).1 "x" "2" (by decide), ?_⟩
  exact ((C1_query_merge.1 _ _ (by decide) (by decide)).2.2 "y").mpr (Or.inr (by decide))

/-- C2: resolving a slug with no link record fails with `NotFound`
(HTTP 404), produces no redirect, and appends nothing to the access-log
store — the state is unchanged. -/
theorem C2_unknown_slug_not_found :
    ∀ (st : StoreState) (slug : String) (ctx : RequestContext),
      (st.links.find? fun l => l.slug = slug) = none →
      resolve st slug ctx = (.error .notFound, st) ∧
      redirectHttpStatus .notFound = 404 ∧
      (resolve st slug ctx).2.access_logs = st.access_logs := by
  intro st slug ctx h
  unfold resolve
  rw [h]
  exact ⟨rfl, rfl, rfl⟩

/-- Witness instantiating C2 on an empty store. -/
theorem C2_unknown_slug_not_found_witness :
    ((StoreState.mk [] []).links.find? fun l => l.slug = "missing") = none ∧
    resolve (StoreState.mk [] []) "missing" { query := "", ip := none, user_agent := "" }
      = (.error .notFound, StoreState.mk [] []) := by
  exact ⟨rfl,
    (C2_unknown_slug_not_found (StoreState.mk [] []) "missing"
      { query := "", ip := none, user_agent := "" } rfl).1⟩

/-- C3 (amended): a taken slug yields 409 and no insert; an untaken slug
whose effective value matches the slug pattern succeeds with the slug and
both QR URLs and appends exactly the new document. -/
theorem C3_shorten_conflict_or_valid_success :
    ∀ (links : List LinkDoc) (name url : String) (cb notes : Option String)
      (exp : Option Int) (supplied : Option String) (autoSlug baseUrl : String)
      (now : Int) (newOid : Nat),
      ((links.find? fun l => l.slug = effectiveSlug supplied autoSlug).isSome →
        shorten_link links name url cb notes exp supplied autoSlug baseUrl now newOid
          = (.error (.http 409 "Slug já está em uso."), links)) ∧
      ((links.find? fun l => l.slug = effectiveSlug supplied autoSlug) = none →
        slugPatternOk (effectiveSlug supplied autoSlug) = true →
        shorten_link links name url cb notes exp supplied autoSlug baseUrl now newOid
          = (.ok { slug := some (effectiveSlug supplied autoSlug)
                   qr_png := rstripSlash baseUrl ++ "/" ++
                     (generate_qr (effectiveSlug supplied autoSlug)).1
                   qr_svg := rstripSlash baseUrl ++ "/" ++
                     (generate_qr (effectiveSlug supplied autoSlug)).2 },
             links ++ [shortenDoc newOid (effectiveSlug supplied autoSlug) url name notes exp cb
               (rstripSlash baseUrl ++ "/" ++ (generate_qr (effectiveSlug supplied autoSlug)).1)
               (rstripSlash baseUrl ++ "/" ++ (generate_qr (effectiveSlug supplied autoSlug)).2)
               now])) := by
  intro links name url cb notes exp supplied autoSlug baseUrl now newOid
  constructor
  · intro h
    unfold shorten_link
    rw [if_pos h]
  · intro h hp
    simp only [shorten_link, h, Option.isSome_none, Bool.false_eq_true, if_false,
      mkShortenResponse, hp, if_true]

/-- Witness instantiating C3 on a conflicting store and on a fresh valid slug. -/
theorem C3_shorten_conflict_or_valid_success_witness :
    (([sampleLink].find? fun l => l.slug = effectiveSlug (some "abc123") "auto99").isSome = true ∧
      shorten_link [sampleLink] "n" "https://e" none none none (some "abc123") "auto99"
          "https://sho.rt" 0 2
        = (.error (.http 409 "Slug já está em uso."), [sampleLink])) ∧
    ((([] : List LinkDoc).find? fun l => l.slug = effectiveSlug (some "fresh1") "auto99") = none ∧
      slugPatternOk (effectiveSlug (some "fresh1") "auto99") = true ∧
      shorten_link [] "n" "https://e" none none none (some "fresh1") "auto99"
          "https://sho.rt" 0 2
        = (.ok { slug := some (effectiveSlug (some "fresh1") "auto99")
                 qr_png := rstripSlash "https://sho.rt" ++ "/" ++
                   (generate_qr (effectiveSlug (some "fresh1") "auto99")).1
                 qr_svg := rstripSlash "https://sho.rt" ++ "/" ++
                   (generate_qr (effectiveSlug (some "fresh1") "auto99")).2 },
           [] ++ [shortenDoc 2 (effectiveSlug (some "fresh1") "auto99") "https://e" "n"
             none none none
             (rstripSlash "https://sho.rt" ++ "/" ++ (generate_qr (effectiveSlug (some "fresh1") "auto99")).1)
             (rstripSlash "https://sho.rt" ++ "/" ++ (generate_qr (effectiveSlug (some "fresh1") "auto99")).2)
             0])) := by
  refine ⟨⟨by decide, ?_⟩, ⟨by decide, by decide, ?_⟩⟩
  · exact (C3_shorten_conflict_or_valid_success [sampleLink] "n" "https://e" none none none
      (some "abc123") "auto99" "https://sho.rt" 0 2).1 (by decide)
  · exact (C3_shorten_conflict_or_valid_success [] "n" "https://e" none none none
      (some "fresh1") "auto99" "https://sho.rt" 0 2).2 (by decide) (by decide)

/-- C3 counterexample: the free slug `ab` does not lead to a success — the
response-model validation rejects it after the insert already happened. -/
theorem C3_untaken_slug_without_success :
    (([] : List LinkDoc).find? fun l => l.slug = "ab") = none ∧
    (shorten_link [] "n" "https://e" none none none (some "ab") "auto99"
        "https://sho.rt" 0 1).1
      = .error (.validation "slug must match ^[a-zA-Z0-9_-]\x7b3,64\x7d$") :=
  ⟨rfl, rfl⟩

/-- C6: evaluating the shorten endpoint at the free two-character slug `ab`
stores a link document whose slug violates the `validate_slug` pattern of
the endpoint's own response schema — the pattern is only checked after
`insert_one`. -/
theorem C6_shorten_stores_invalid_slug :
    slugPatternOk "ab" = false ∧
    (shorten_link [] "n" "https://e" none none none (some "ab") "auto99"
        "https://sho.rt" 0 1).2.map LinkDoc.slug = ["ab"] :=
  ⟨rfl, rfl⟩

/-- C4 (amended): geo enrichment skips the lookup and returns only the IP
for private/loopback/reserved (or unparseable) addresses; any other IP
triggers exactly one bounded lookup (timeout 2 seconds, within the spec's
2-3 second bound); a timeout, non-2xx status or undecodable body degrades
to the IP-only dictionary — but a 2xx response whose body is valid JSON
that is not an object makes the field extraction, which sits outside the
`try` block, raise an uncaught `AttributeError` to the caller. -/
theorem C4_geo_enrichment_degrades :
    (∀ (ip : String) (net : NetOutcome), ip ≠ "" → _is_private_ip ip = true →
      get_geo_from_ip (some ip) net = (.ok [("ip", .base (.gstr ip))], 0)) ∧
    (∀ (ip : String) (net : NetOutcome), ip ≠ "" → _is_private_ip ip = false →
      (get_geo_from_ip (some ip) net).2 = 1 ∧
      (geoLookupFailed net = true →
        (get_geo_from_ip (some ip) net).1 = .ok [("ip", .base (.gstr ip))])) ∧
    (∀ (ip : String) (c : Nat), ip ≠ "" → _is_private_ip ip = false → is2xx c = true →
      (get_geo_from_ip (some ip) (.response c (some .jnonobject))).1
        = .error .attributeError) ∧
    (2 ≤ geoTimeoutSeconds ∧ geoTimeoutSeconds ≤ 3) := by
  refine ⟨?_, ?_, ?_, by norm_num [geoTimeoutSeconds]⟩
  · intro ip net hne hpriv
    simp [get_geo_from_ip, hne, hpriv]
  · intro ip net hne hpriv
    constructor
    · cases net with
      | timeout => simp [get_geo_from_ip, hne, hpriv]
      | response c body =>
        by_cases h2 : is2xx c = true
        · cases body with
          | none => simp [get_geo_from_ip, hne, hpriv, h2]
          | some j =>
            cases j with
            | jobj data => simp [get_geo_from_ip, hne, hpriv, h2]
            | jnonobject => simp [get_geo_from_ip, hne, hpriv, h2]
        · simp [get_geo_from_ip, hne, hpriv, h2]
    · intro hf
      cases net with
      | timeout => simp [get_geo_from_ip, hne, hpriv]
      | response c body =>
        simp only [geoLookupFailed] at hf
        by_cases h2 : is2xx c = true
        · cases body with
          | none => simp [get_geo_from_ip, hne, hpriv, h2]
          | some j => simp [h2] at hf
        · simp [get_geo_from_ip, hne, hpriv, h2]
  · intro ip c hne hpriv h2
    simp [get_geo_from_ip, hne, hpriv, h2]

/-- Witness instantiating C4 on a private address, on a public address
with a timed-out lookup, and on a public address receiving a 2xx
non-object payload. -/
theorem C4_geo_enrichment_degrades_witness :
    ("10.0.0.1" ≠ "" ∧ _is_private_ip "10.0.0.1" = true ∧
      get_geo_from_ip (some "10.0.0.1") .timeout
        = (.ok [("ip", .base (.gstr "10.0.0.1"))], 0)) ∧
    ("8.8.8.8" ≠ "" ∧ _is_private_ip "8.8.8.8" = false ∧ geoLookupFailed .timeout = true ∧
      (get_geo_from_ip (some "8.8.8.8") .timeout).2 = 1 ∧
      (get_geo_from_ip (some "8.8.8.8") .timeout).1
        = .ok [("ip", .base (.gstr "8.8.8.8"))]) ∧
    (is2xx 200 = true ∧
      (get_geo_from_ip (some "8.8.8.8") (.response 200 (some .jnonobject))).1
        = .error .attributeError) := by
  refine ⟨⟨by decide, by decide, ?_⟩, ⟨by decide, by decide, rfl, ?_, ?_⟩, ⟨rfl, ?_⟩⟩
  · exact C4_geo_enrichment_degrades.1 "10.0.0.1" .timeout (by decide) (by decide)
  · exact (C4_geo_enrichment_degrades.2.1 "8.8.8.8" .timeout (by decide) (by decide)).1
  · exact (C4_geo_enrichment_degrades.2.1 "8.8.8.8" .timeout (by decide) (by decide)).2 rfl
  · exact C4_geo_enrichment_degrades.2.2.1 "8.8.8.8" 200 (by decide) (by decide) rfl

/-- C4 counterexample: a single 2xx lookup whose body is valid JSON but
not an object makes geo enrichment raise `AttributeError` to its caller
instead of degrading to the IP-only dictionary, refuting "never raises"
and "any malformed payload returns only the IP". -/
theorem C4_nonobject_payload_raises :
    _is_private_ip "8.8.8.8" = false ∧
    (get_geo_from_ip (some "8.8.8.8") (.response 200 (some .jnonobject))).1
      = .error .attributeError ∧
    ∀ r, (get_geo_from_ip (some "8.8.8.8") (.response 200 (some .jnonobject))).1
      ≠ .ok r := by
  refine ⟨by decide, rfl, ?_⟩
  intro r h
  rw [show (get_geo_from_ip (some "8.8.8.8") (.response 200 (some .jnonobject))).1
      = .error .attributeError from rfl] at h
  exact Except.noConfusion h

/-- C5: device enrichment is total and returns the degraded record — flags
false, the parser's null family values, empty versions — for any
user-agent string the library's regex database does not match, the empty
string included. -/
theorem C5_device_facts_degrade :
    ∀ (lib : String → Option UserAgentInfo) (s : String),
      lib s = none → parse_user_agent lib s = nullDeviceFacts := by
  intro lib s h
  simp [parse_user_agent, uaParse, h, uaDefaults, nullDeviceFacts]

/-- Witness instantiating C5 on the empty user-agent string with the
no-match outcome. -/
theorem C5_device_facts_degrade_witness :
    ((fun _ : String => (none : Option UserAgentInfo)) "") = none ∧
    parse_user_agent (fun _ => none) "" = nullDeviceFacts :=
  ⟨rfl, C5_device_facts_degrade (fun _ => none) "" rfl⟩

theorem removeFirst_length {α : Type} (p : α → Bool) (l : List α)
    (h : (l.find? p).isSome = true) : (removeFirst p l).length + 1 = l.length := by
  induction l with
  | nil => simp [List.find?] at h
  | cons a as ih =>
    by_cases hpa : p a = true
    · simp [removeFirst, hpa]
    · have h2 : (as.find? p).isSome = true := by
        rwa [List.find?_cons_of_neg _ (by simpa using hpa)] at h
      simp only [removeFirst, if_neg hpa, List.length_cons]
      have := ih h2
      omega

theorem mem_removeFirst {α : Type} (p : α → Bool) (l : List α) :
    ∀ x ∈ removeFirst p l, x ∈ l := by
  induction l with
  | nil => intro x hx; simp [removeFirst] at hx
  | cons a as ih =>
    intro x hx
    by_cases hpa : p a = true
    · simp only [removeFirst, if_pos hpa] at hx
      exact List.mem_cons_of_mem a hx
    · simp only [removeFirst, if_neg hpa] at hx
      rcases List.mem_cons.mp hx with h | h
      · exact h ▸ List.mem_cons_self a as
      · exact List.mem_cons_of_mem a (ih x h)

theorem removeFirst_oid_ne (links : List LinkDoc) (lid : Nat)
    (hnodup : (links.map LinkDoc.oid).Nodup) :
    ∀ l ∈ removeFirst (fun l => l.oid = lid) links, l.oid ≠ lid := by
  induction links with
  | nil => intro l hl; simp [removeFirst] at hl
  | cons a as ih =>
    have hnodup2 : (a.oid :: as.map LinkDoc.oid).Nodup := by
      simpa only [List.map_cons] using hnodup
    have hcons := List.nodup_cons.mp hnodup2
    intro l hl
    by_cases hpa : a.oid = lid
    · rw [removeFirst, if_pos (by simpa using hpa)] at hl
      intro heq
      apply hcons.1
      rw [hpa, ← heq]
      exact List.mem_map_of_mem LinkDoc.oid hl
    · rw [removeFirst, if_neg (by simpa using hpa)] at hl
      rcases List.mem_cons.mp hl with h | h
      · exact h ▸ hpa
      · exact ih hcons.2 l h

/-- C7: deleting a link by id rewrites the slug of every access-log entry
bearing the link's slug to `{slug}_deleted_{date}` while leaving other
entries and all log bodies untouched, deletes no log entry, removes
exactly that one link record, and frees the slug for reuse. -/
theorem C7_delete_link_tombstones :
    ∀ (links : List LinkDoc) (logs : List AccessLog) (lid : Nat) (today : String)
      (d : LinkDoc),
      (links.find? fun l => l.oid = lid) = some d → d.slug ≠ "" →
      delete_link links logs lid today
        = .ok (removeFirst (fun l => l.oid = lid) links,
               logs.map (tombstoneLog d.slug (d.slug ++ "_deleted_" ++ today))) ∧
      (logs.map (tombstoneLog d.slug (d.slug ++ "_deleted_" ++ today))).length
        = logs.length ∧
      (∀ g : AccessLog,
        (tombstoneLog d.slug (d.slug ++ "_deleted_" ++ today) g).body = g.body) ∧
      (∀ g : AccessLog, g.slug = d.slug →
        (tombstoneLog d.slug (d.slug ++ "_deleted_" ++ today) g).slug
          = d.slug ++ "_deleted_" ++ today) ∧
      (∀ g : AccessLog, g.slug ≠ d.slug →
        tombstoneLog d.slug (d.slug ++ "_deleted_" ++ today) g = g) ∧
      (removeFirst (fun l => l.oid = lid) links).length + 1 = links.length ∧
      ((links.map LinkDoc.oid).Nodup → (∀ l ∈ links, l.slug = d.slug → l.oid = lid) →
        ∀ l ∈ removeFirst (fun l => l.oid = lid) links, l.slug ≠ d.slug) := by
  intro links logs lid today d hfind hslug
  refine ⟨?_, List.length_map logs _, ?_, ?_, ?_, ?_, ?_⟩
  · simp only [delete_link, hfind]
    rw [if_neg hslug]
  · intro g; unfold tombstoneLog; split <;> rfl
  · intro g hg; simp [tombstoneLog, hg]
  · intro g hg; simp [tombstoneLog, hg]
  · exact removeFirst_length _ links (by rw [hfind]; rfl)
  · intro hnodup honly l hl hs
    exact removeFirst_oid_ne links lid hnodup l hl
      (honly l (mem_removeFirst _ links l hl) hs)

/-- Witness instantiating C7 on a one-link store with two access logs. -/
theorem C7_delete_link_tombstones_witness :
    (([sampleLink].find? fun l => l.oid = 1) = some sampleLink ∧
      sampleLink.slug ≠ "") ∧
    delete_link [sampleLink]
        [{ slug := "abc123", body := [("ip", "1.2.3.4")] }, { slug := "other1", body := [] }]
        1 "2026-10-12"
      = .ok (removeFirst (fun l => l.oid = 1) [sampleLink],
          [{ slug := "abc123", body := [("ip", "1.2.3.4")] },
           ({ slug := "other1", body := [] } : AccessLog)].map
            (tombstoneLog sampleLink.slug (sampleLink.slug ++ "_deleted_" ++ "2026-10-12"))) := by
  refine ⟨⟨by decide, by decide⟩, ?_⟩
  exact (C7_delete_link_tombstones [sampleLink]
    [{ slug := "abc123", body := [("ip", "1.2.3.4")] }, { slug := "other1", body := [] }]
    1 "2026-10-12" sampleLink (by decide) (by decide)).1

/-- C8 (amended): the legacy serializer `_serialize_link` of the unmounted
module normalizes both schema generations — `created_at` falls back from
`created_at` to `createdAt` and string timestamps are parsed into UTC
datetimes, `is_active` falls back to `status == "valid"` and then to true —
while the mounted admin router's list handler returns the raw stored
fields, with `is_active` merely coerced by `bool()`. -/
theorem C8_legacy_serializer_normalizes :
    (∀ (doc : List (String × PyVal)) (now : PyDateTime),
      (_serialize_link doc now).created_at
        = (optOr (_safe_dt (dget doc "created_at")) (_safe_dt (dget doc "createdAt"))).getD now) ∧
    (∀ (doc : List (String × PyVal)) (now : PyDateTime),
      dget doc "is_active" = PyVal.vnone → dget doc "status" = PyVal.vnone →
      (_serialize_link doc now).is_active = true) ∧
    (∀ (doc : List (String × PyVal)) (now : PyDateTime),
      dget doc "is_active" = PyVal.vnone → dget doc "status" ≠ PyVal.vnone →
      (_serialize_link doc now).is_active = (dget doc "status" == PyVal.vstr "valid")) ∧
    (∀ (s : String) (d : PyDateTime), _safe_dt (PyVal.vstr s) = some d → d.tz = some 0) ∧
    (∀ doc : List (String × PyVal),
      (adminLinkItem doc).is_active = pyTruthy (dget doc "is_active") ∧
      (adminLinkItem doc).created_at = dget doc "created_at") := by
  refine ⟨fun doc now => rfl, ?_, ?_, ?_, fun doc => ⟨rfl, rfl⟩⟩
  · intro doc now h1 h2
    simp [_serialize_link, h1, h2, pyTruthy]
  · intro doc now h1 h2
    simp [_serialize_link, h1, h2, pyTruthy]
  · intro s d h
    simp only [_safe_dt] at h
    split at h
    · exact absurd h (by simp)
    · split at h
      · exact absurd h (by simp)
      · cases h
        rfl

/-- Witness instantiating C8 on the legacy sample document. -/
theorem C8_legacy_serializer_normalizes_witness :
    (dget legacyLinkDoc "is_active" = PyVal.vnone ∧
      dget legacyLinkDoc "status" ≠ PyVal.vnone ∧
      (_serialize_link legacyLinkDoc pyEpoch).is_active
        = (dget legacyLinkDoc "status" == PyVal.vstr "valid")) ∧
    (_safe_dt (PyVal.vstr "2024-01-01T00:00:00Z")
        = some { wall := 1704067200000000, tz := some 0 } ∧
      ({ wall := 1704067200000000, tz := some 0 } : PyDateTime).tz = some 0) := by
  refine ⟨⟨by decide, by decide, ?_⟩, ⟨by decide, ?_⟩⟩
  · exact C8_legacy_serializer_normalizes.2.2.1 legacyLinkDoc pyEpoch (by decide) (by decide)
  · exact C8_legacy_serializer_normalizes.2.2.2.1 "2024-01-01T00:00:00Z"
      { wall := 1704067200000000, tz := some 0 } (by decide)

/-- C8 counterexample: a legacy document read through the mounted admin
list path comes back unnormalized — `is_active` is false although
`status` is `valid`, and `created_at` is `None` although `createdAt`
holds a parseable timestamp — while the legacy serializer normalizes the
same document as the claim describes. -/
theorem C8_live_admin_path_not_normalized :
    (adminLinkItem legacyLinkDoc).is_active = false ∧
    (adminLinkItem legacyLinkDoc).created_at = PyVal.vnone ∧
    (_serialize_link legacyLinkDoc pyEpoch).is_active = true ∧
    (_serialize_link legacyLinkDoc pyEpoch).created_at
      = { wall := 1704067200000000, tz := some 0 } := by
  decide

/-- C9: for every existing slug the QR-regenerate endpoint updates the
matched link by setting exactly `qr_png`, `qr_svg`, `is_active := true`,
`status := "valid"` and `updated_at := now`, leaving every other field
unchanged — so a previously disabled link is reactivated. -/
theorem C9_regenerate_qr_frame :
    ∀ (links : List LinkDoc) (slug : String) (force pngExists svgExists : Bool)
      (baseUrl : String) (now : Int) (d : LinkDoc),
      (links.find? fun l => l.slug = slug) = some d →
      (∃ png svg,
        (regenerateOne links slug force pngExists svgExists baseUrl now).1
          = updateFirst (fun l => l.oid = d.oid) (applyQrSet png svg now) links) ∧
      (∀ (l : LinkDoc) (png svg : String),
        (applyQrSet png svg now l).oid = l.oid ∧
        (applyQrSet png svg now l).slug = l.slug ∧
        (applyQrSet png svg now l).original_url = l.original_url ∧
        (applyQrSet png svg now l).title = l.title ∧
        (applyQrSet png svg now l).notes = l.notes ∧
        (applyQrSet png svg now l).tags = l.tags ∧
        (applyQrSet png svg now l).created_at = l.created_at ∧
        (applyQrSet png svg now l).expires_at = l.expires_at ∧
        (applyQrSet png svg now l).max_clicks = l.max_clicks ∧
        (applyQrSet png svg now l).click_count = l.click_count ∧
        (applyQrSet png svg now l).callback_url = l.callback_url ∧
        (applyQrSet png svg now l).is_active = true ∧
        (applyQrSet png svg now l).status = some "valid" ∧
        (applyQrSet png svg now l).updated_at = some now ∧
        (applyQrSet png svg now l).qr_png = some png ∧
        (applyQrSet png svg now l).qr_svg = some svg) := by
  intro links slug force pngExists svgExists baseUrl now d hfind
  constructor
  · simp only [regenerateOne, hfind]
    by_cases hb : (!force && pngExists && svgExists) = true
    · rw [if_pos hb]
      exact ⟨_, _, rfl⟩
    · rw [if_neg hb]
      exact ⟨_, _, rfl⟩
  · intro l png svg
    exact ⟨rfl, rfl, rfl, rfl, rfl, rfl, rfl, rfl, rfl, rfl, rfl, rfl, rfl, rfl, rfl, rfl⟩

/-- Witness instantiating C9 on a store holding a disabled link. -/
theorem C9_regenerate_qr_frame_witness :
    ([sampleLink].find? fun l => l.slug = "abc123") = some sampleLink ∧
    (∃ png svg,
      (regenerateOne [sampleLink] "abc123" true false false "https://sho.rt" 0).1
        = updateFirst (fun l => l.oid = sampleLink.oid) (applyQrSet png svg 0) [sampleLink]) ∧
    sampleLink.is_active = false ∧
    (applyQrSet "p" "s" 0 sampleLink).is_active = true := by
  refine ⟨by decide, ?_, by decide, by decide⟩
  exact (C9_regenerate_qr_frame [sampleLink] "abc123" true false false "https://sho.rt" 0
    sampleLink (by decide)).1

/-- C10: a missing (`None` or empty) IP yields the empty dictionary; any
string that fails IP parsing is classified as private, triggers no
outbound lookup, and yields exactly the dictionary holding that string
under `ip`. -/
theorem C10_geo_missing_or_invalid_ip :
    (∀ net, get_geo_from_ip none net = (.ok [], 0)) ∧
    (∀ net, get_geo_from_ip (some "") net = (.ok [], 0)) ∧
    (∀ s, ip_address s = none → _is_private_ip s = true) ∧
    (∀ (s : String) (net : NetOutcome), s ≠ "" → ip_address s = none →
      get_geo_from_ip (some s) net = (.ok [("ip", .base (.gstr s))], 0)) := by
  refine ⟨fun net => rfl, fun net => rfl, ?_, ?_⟩
  · intro s h
    unfold _is_private_ip
    rw [h]
  · intro s net hne h
    have hp : _is_private_ip s = true := by
      unfold _is_private_ip
      rw [h]
    simp [get_geo_from_ip, hne, hp]

/-- Witness instantiating C10 on a non-IP string. -/
theorem C10_geo_missing_or_invalid_ip_witness :
    ("not-an-ip" ≠ "" ∧ ip_address "not-an-ip" = none) ∧
    _is_private_ip "not-an-ip" = true ∧
    get_geo_from_ip (some "not-an-ip") .timeout
      = (.ok [("ip", .base (.gstr "not-an-ip"))], 0) := by
  refine ⟨⟨by decide, by decide⟩, C10_geo_missing_or_invalid_ip.2.2.1 "not-an-ip" (by decide), ?_⟩
  exact C10_geo_missing_or_invalid_ip.2.2.2 "not-an-ip" .timeout (by decide) (by decide)

end LinkShortener
